import Mathlib

set_option maxRecDepth 8000

/-!
Verification of the senlib BME280 driver and its acquisition loop.

The development shallowly embeds the Python code of `senlib/i2c/sensors/bmex.py`
and `senlib/cli.py`:

* Python floats in the compensation formulas are modelled as exact rationals
  (every operation involved is `+`, `-`, `*`, `/`);
* Python arbitrary-precision integers are modelled as `Int`, with the bitwise
  operators `|` and `<<` on possibly negative operands given their exact
  two's-complement semantics (`pyOr`, `pyShiftL`);
* the `asyncio` event loop driving `Application._start` is modelled as a small
  step machine with at most one scheduled callback (`LoopState`, `callbackStep`).
-/

namespace Senlib

/-- Embedding of the Python builtin `int(x)` applied to a float/rational:
truncation toward zero. -/
def pyInt (q : ℚ) : ℤ := Int.tdiv q.num q.den

/-- Embedding of the Python operator `|` on arbitrary-precision integers:
bitwise or in two's complement.  On two nonnegative operands it is `Nat.lor`;
a negative operand `-(m+1)` has bit pattern `~m`, and
`x ||| y = ~(~x &&& ~y)`, with `ldiff m n = m - (m &&& n)` on naturals. -/
def pyOr (a b : ℤ) : ℤ :=
  match a, b with
  | .ofNat m, .ofNat n => .ofNat (m ||| n)
  | .ofNat m, .negSucc n => .negSucc (n - (n &&& m))
  | .negSucc m, .ofNat n => .negSucc (m - (m &&& n))
  | .negSucc m, .negSucc n => .negSucc (m &&& n)

/-- Embedding of the Python operator `<<` on arbitrary-precision integers:
`x << n` is exactly `x * 2 ^ n`, for negative `x` as well. -/
def pyShiftL (a : ℤ) (n : ℕ) : ℤ := a * 2 ^ n

/-- Embedding of `struct.unpack` with format `b` (signed 8-bit, two's
complement) applied to one byte. -/
def decodeS8 (b : ℕ) : ℤ := if b < 128 then (b : ℤ) else (b : ℤ) - 256

/-- Embedding of `struct.unpack` with format `<h` (little-endian signed
16-bit, two's complement) applied to the byte pair `b0, b1`. -/
def decodeS16 (b0 b1 : ℕ) : ℤ :=
  if b0 + 256 * b1 < 32768 then (b0 + 256 * b1 : ℤ) else (b0 + 256 * b1 : ℤ) - 65536

/-- Embedding of `struct.unpack` with format `<H` (little-endian unsigned
16-bit) applied to the byte pair `b0, b1`. -/
def decodeU16 (b0 b1 : ℕ) : ℤ := (b0 + 256 * b1 : ℤ)

/-- The calibration constants of the BME280 driver
(`BME280._read_calibration_data` stores them on `self`). -/
structure CalibrationSet where
  dig_T1 : ℤ
  dig_T2 : ℤ
  dig_T3 : ℤ
  dig_P1 : ℤ
  dig_P2 : ℤ
  dig_P3 : ℤ
  dig_P4 : ℤ
  dig_P5 : ℤ
  dig_P6 : ℤ
  dig_P7 : ℤ
  dig_P8 : ℤ
  dig_P9 : ℤ
  dig_H1 : ℤ
  dig_H2 : ℤ
  dig_H3 : ℤ
  dig_H4 : ℤ
  dig_H5 : ℤ
  dig_H6 : ℤ
deriving DecidableEq

/-- Embedding of `BME280._read_calibration_data`.  `blk88` is the 26-byte
block read at register 0x88, unpacked with format `<HhhHhhhhhhhhBB`
(T1 unsigned, T2 T3 signed, P1 unsigned, P2..P9 signed, one ignored byte,
H1 unsigned byte); `blkE1` is the 7-byte block read at register 0xE1:
H2 from bytes 0-1 with `<h`, H3 from byte 2 with `B`, then
`e4_sign = unpack(<b, byte 3)`, `dig_H4 = (e4_sign << 4) | (byte4 & 0xF)`,
`e6_sign = unpack(<b, byte 5)`, `dig_H5 = (e6_sign << 4) | (byte4 >> 4)`,
`dig_H6 = unpack(<b, byte 6)`. -/
def readCalibrationData (blk88 blkE1 : List ℕ) : CalibrationSet :=
  let b := fun i => blk88.getD i 0
  let e := fun i => blkE1.getD i 0
  { dig_T1 := decodeU16 (b 0) (b 1)
    dig_T2 := decodeS16 (b 2) (b 3)
    dig_T3 := decodeS16 (b 4) (b 5)
    dig_P1 := decodeU16 (b 6) (b 7)
    dig_P2 := decodeS16 (b 8) (b 9)
    dig_P3 := decodeS16 (b 10) (b 11)
    dig_P4 := decodeS16 (b 12) (b 13)
    dig_P5 := decodeS16 (b 14) (b 15)
    dig_P6 := decodeS16 (b 16) (b 17)
    dig_P7 := decodeS16 (b 18) (b 19)
    dig_P8 := decodeS16 (b 20) (b 21)
    dig_P9 := decodeS16 (b 22) (b 23)
    dig_H1 := (b 25 : ℤ)
    dig_H2 := decodeS16 (e 0) (e 1)
    dig_H3 := (e 2 : ℤ)
    dig_H4 := pyOr (pyShiftL (decodeS8 (e 3)) 4) ((e 4 &&& 0xF : ℕ) : ℤ)
    dig_H5 := pyOr (pyShiftL (decodeS8 (e 5)) 4) ((e 4 >>> 4 : ℕ) : ℤ)
    dig_H6 := decodeS8 (e 6) }

/-- Embedding of `BME280._compensate_temperature`.  Returns the pair of the
returned Celsius temperature and the value stored into `self.t_fine`
(`int(var1 + var2)`). -/
def compensate_temperature (cal : CalibrationSet) (adc_t : ℕ) : ℚ × ℤ :=
  let UT : ℚ := (adc_t : ℚ)
  let var1 := (UT / 16384 - (cal.dig_T1 : ℚ) / 1024) * (cal.dig_T2 : ℚ)
  let var2 := ((UT / 131072 - (cal.dig_T1 : ℚ) / 8192) *
    (UT / 131072 - (cal.dig_T1 : ℚ) / 8192)) * (cal.dig_T3 : ℚ)
  let t_fine := pyInt (var1 + var2)
  let temp := (var1 + var2) / 5120
  (temp, t_fine)

/-- The `t_fine` value that temperature compensation stores for a given
calibration set and raw temperature count. -/
def tFineOf (cal : CalibrationSet) (adc_t : ℕ) : ℤ :=
  (compensate_temperature cal adc_t).2

/-- The intermediate normalization factor of `BME280._compensate_pressure`:
the value `var1` holds when the `if var1 == 0` guard is tested
(lines 124 and 128-130 of `bmex.py`). -/
def pressureVar1 (cal : CalibrationSet) (t_fine : ℤ) : ℚ :=
  let var1 := (t_fine : ℚ) / 2 - 64000
  let var1 := ((cal.dig_P3 : ℚ) * var1 * var1 / 524288 + (cal.dig_P2 : ℚ) * var1) / 524288
  (1 + var1 / 32768) * (cal.dig_P1 : ℚ)

/-- Embedding of `BME280._compensate_pressure` with rational arithmetic
(division is total on `ℚ`; the only division whose divisor is not a nonzero
literal is guarded by the `if var1 == 0` test, see `compensate_pressureE`). -/
def compensate_pressure (cal : CalibrationSet) (t_fine : ℤ) (adc_p : ℕ) : ℚ :=
  let var1 := (t_fine : ℚ) / 2 - 64000
  let var2 := var1 * var1 * (cal.dig_P6 : ℚ) / 32768
  let var2 := var2 + var1 * (cal.dig_P5 : ℚ) * 2
  let var2 := var2 / 4 + (cal.dig_P4 : ℚ) * 65536
  let var1 := ((cal.dig_P3 : ℚ) * var1 * var1 / 524288 + (cal.dig_P2 : ℚ) * var1) / 524288
  let var1 := (1 + var1 / 32768) * (cal.dig_P1 : ℚ)
  if var1 = 0 then 0
  else
    let p := 1048576 - (adc_p : ℚ)
    let p := (p - var2 / 4096) * 6250 / var1
    let var1 := (cal.dig_P9 : ℚ) * p * p / 2147483648
    let var2 := p * (cal.dig_P8 : ℚ) / 32768
    p + (var1 + var2 + (cal.dig_P7 : ℚ)) / 16

/-- Exceptions a Python compensation call could raise: a float division with
zero divisor raises `ZeroDivisionError`; `CompensationError` is the
exception the specification postulates (it appears nowhere in the code). -/
inductive PyExn where
  | zeroDivisionError : PyExn
  | compensationError : PyExn
deriving DecidableEq

/-- Embedding of a Python float division that makes the possible
`ZeroDivisionError` explicit. -/
def pyDivE (x y : ℚ) : Except PyExn ℚ :=
  if y = 0 then .error .zeroDivisionError else .ok (x / y)

/-- Exception-explicit embedding of `BME280._compensate_pressure`: identical
to `compensate_pressure`, except that the one division whose divisor is not a
nonzero literal (`/ var1` on line 134) goes through `pyDivE`. -/
def compensate_pressureE (cal : CalibrationSet) (t_fine : ℤ) (adc_p : ℕ) :
    Except PyExn ℚ :=
  let var1 := (t_fine : ℚ) / 2 - 64000
  let var2 := var1 * var1 * (cal.dig_P6 : ℚ) / 32768
  let var2 := var2 + var1 * (cal.dig_P5 : ℚ) * 2
  let var2 := var2 / 4 + (cal.dig_P4 : ℚ) * 65536
  let var1 := ((cal.dig_P3 : ℚ) * var1 * var1 / 524288 + (cal.dig_P2 : ℚ) * var1) / 524288
  let var1 := (1 + var1 / 32768) * (cal.dig_P1 : ℚ)
  if var1 = 0 then .ok 0
  else
    let p := 1048576 - (adc_p : ℚ)
    match pyDivE ((p - var2 / 4096) * 6250) var1 with
    | .error e => .error e
    | .ok p =>
      let var1 := (cal.dig_P9 : ℚ) * p * p / 2147483648
      let var2 := p * (cal.dig_P8 : ℚ) / 32768
      .ok (p + (var1 + var2 + (cal.dig_P7 : ℚ)) / 16)

/-- Embedding of lines 141-145 of `BME280._compensate_humidity`: the raw
humidity polynomial before the final clamp. -/
def humidityRaw (cal : CalibrationSet) (t_fine : ℤ) (adc_h : ℕ) : ℚ :=
  let h := (t_fine : ℚ) - 76800
  let h := ((adc_h : ℚ) - ((cal.dig_H4 : ℚ) * 64 + (cal.dig_H5 : ℚ) / 16384 * h)) *
    ((cal.dig_H2 : ℚ) / 65536 * (1 + (cal.dig_H6 : ℚ) / 67108864 * h *
      (1 + (cal.dig_H3 : ℚ) / 67108864 * h)))
  h * (1 - (cal.dig_H1 : ℚ) * h / 524288)

/-- Embedding of `BME280._compensate_humidity`: the raw polynomial followed
by the clamp `if h > 100: h = 100 elif h < 0: h = 0`. -/
def compensate_humidity (cal : CalibrationSet) (t_fine : ℤ) (adc_h : ℕ) : ℚ :=
  let h := humidityRaw cal t_fine adc_h
  if h > 100 then 100 else if h < 0 then 0 else h

/-- The mutable per-instance state of a `BME280` object that the measurement
methods touch: `self.t_fine` and the cached `self._temperature`,
`self._pressure`, `self._humidity`. -/
structure DriverState where
  t_fine : ℤ
  _temperature : ℚ
  _pressure : ℚ
  _humidity : ℚ
deriving DecidableEq

/-- The driver state right after `BME280.__init__` ran: `t_fine = 0.0` and
all cached measurements `0.0`. -/
def initState : DriverState :=
  { t_fine := 0, _temperature := 0, _pressure := 0, _humidity := 0 }

/-- The mapping returned by `BME280.measure` (keys temperature, humidity,
pressure). -/
structure Measurement where
  temperature : ℚ
  humidity : ℚ
  pressure : ℚ
deriving DecidableEq

/-- Embedding of `BME280.measure`, with the raw sample
`(adc_p, adc_t, adc_h)` (the result of `_read_raw_sensor_data`) passed in
explicitly: temperature compensation runs first and its `t_fine` is used by
the pressure and humidity compensation of the same sample; the three values
are cached on the state and returned as a mapping. -/
def measure (cal : CalibrationSet) (s : DriverState) (adc_p adc_t adc_h : ℕ) :
    Measurement × DriverState :=
  let ct := compensate_temperature cal adc_t
  let temp := ct.1
  let tf := ct.2
  let press := compensate_pressure cal tf adc_p
  let hum := compensate_humidity cal tf adc_h
  ({ temperature := temp, humidity := hum, pressure := press },
   { t_fine := tf, _temperature := temp, _pressure := press, _humidity := hum })

/-- Embedding of `BME280.read_pressure`: temperature compensation runs first
(updating `t_fine`, its return value discarded), then pressure compensation. -/
def read_pressure (cal : CalibrationSet) (s : DriverState) (adc_p adc_t adc_h : ℕ) :
    ℚ × DriverState :=
  let ct := compensate_temperature cal adc_t
  (compensate_pressure cal ct.2 adc_p, { s with t_fine := ct.2 })

/-- Embedding of `BME280.read_humidity`: temperature compensation runs first
(updating `t_fine`), then humidity compensation. -/
def read_humidity (cal : CalibrationSet) (s : DriverState) (adc_p adc_t adc_h : ℕ) :
    ℚ × DriverState :=
  let ct := compensate_temperature cal adc_t
  (compensate_humidity cal ct.2 adc_h, { s with t_fine := ct.2 })

/-- Accessor `BME280.temperature`. -/
def DriverState.temperature (s : DriverState) : ℚ := s._temperature

/-- Accessor `BME280.pressure`. -/
def DriverState.pressure (s : DriverState) : ℚ := s._pressure

/-- Accessor `BME280.humidity`. -/
def DriverState.humidity (s : DriverState) : ℚ := s._humidity

/-- A call of `BME280._compensate_pressure` made directly after construction,
with no prior temperature compensation: it reads the constructor-initialized
`self.t_fine = 0.0`.  The body of the method contains no raise statement, so
the exception-explicit embedding is used to show what the call returns. -/
def pressureAfterInit (cal : CalibrationSet) (adc_p : ℕ) : Except PyExn ℚ :=
  compensate_pressureE cal initState.t_fine adc_p

/-- A call of `BME280._compensate_humidity` made directly after construction,
with no prior temperature compensation: it reads the constructor-initialized
`self.t_fine = 0.0` and returns normally (every division in the body has a
nonzero literal divisor). -/
def humidityAfterInit (cal : CalibrationSet) (adc_h : ℕ) : Except PyExn ℚ :=
  .ok (compensate_humidity cal initState.t_fine adc_h)

/-- State of the asyncio event loop driving `Application._start`.
`pending = some num` means a call `callback(num)` is scheduled (via
`call_soon` or `call_later`); the code schedules at most one callback at a
time.  `stopped` records whether `loop.stop()` ran.  `measured` counts the
calls of `self._sensor.measure()`, `delivered` the calls of
`self._handle_data(sensor_data)`. -/
structure LoopState where
  pending : Option ℤ
  stopped : Bool
  measured : ℕ
  delivered : ℕ
deriving DecidableEq

/-- One event-loop turn of `Application._start` with poll argument `poll`:
if a `callback(num)` is scheduled and the loop is not stopped, it runs
`sensor_data = self._sensor.measure()` (outcome `ok num`; on an exception the
callback aborts here: asyncio logs the error, nothing is rescheduled and the
loop keeps running), then `self._handle_data(sensor_data)`, then either
reschedules `callback(num+1)` after the interval (when `num != poll`) or
calls `self._loop.stop()`. -/
def callbackStep (poll : ℤ) (ok : ℤ → Bool) (s : LoopState) : LoopState :=
  match s.pending with
  | none => s
  | some num =>
    if s.stopped then s
    else if ok num then
      if num ≠ poll then
        { pending := some (num + 1), stopped := s.stopped,
          measured := s.measured + 1, delivered := s.delivered + 1 }
      else
        { pending := none, stopped := true,
          measured := s.measured + 1, delivered := s.delivered + 1 }
    else
      { pending := none, stopped := s.stopped,
        measured := s.measured + 1, delivered := s.delivered }

/-- Run `fuel` event-loop turns. -/
def runLoop (poll : ℤ) (ok : ℤ → Bool) : ℕ → LoopState → LoopState
  | 0, s => s
  | fuel + 1, s => runLoop poll ok fuel (callbackStep poll ok s)

/-- The loop state right after `Application._start` ran:
`self._loop.call_soon(callback, 1)` scheduled `callback(1)`. -/
def startState : LoopState :=
  { pending := some 1, stopped := false, measured := 0, delivered := 0 }

/-- Outcome of one `SensorNode._handle_data(data)` call, for the sink fan-out
of the node application: which sinks received the measurement, and whether
the call raised. -/
structure FanoutResult where
  webDelivered : Bool
  mqttDelivered : Bool
  raised : Bool
deriving DecidableEq

/-- Embedding of `SensorNode._handle_data`: `if self._webserver:
self._webserver.broadcast(data)` then `if self._publisher:
self._publisher.publish(data)`, executed sequentially with no exception
handling.  `hasWeb`/`hasMqtt` model the truthiness of the two sink
attributes, `webOk`/`mqttOk` whether the respective sink call returns
normally; a raising sink aborts the method at that point. -/
def handleData (hasWeb hasMqtt webOk mqttOk : Bool) : FanoutResult :=
  if hasWeb then
    if webOk then
      if hasMqtt then
        if mqttOk then
          { webDelivered := true, mqttDelivered := true, raised := false }
        else
          { webDelivered := true, mqttDelivered := false, raised := true }
      else
        { webDelivered := true, mqttDelivered := false, raised := false }
    else
      { webDelivered := false, mqttDelivered := false, raised := true }
  else
    if hasMqtt then
      if mqttOk then
        { webDelivered := false, mqttDelivered := true, raised := false }
      else
        { webDelivered := false, mqttDelivered := false, raised := true }
    else
      { webDelivered := false, mqttDelivered := false, raised := false }

/-- The all-zero calibration set (the values `BME280.__init__` assigns to
every `dig_` attribute before `_read_calibration_data` runs). -/
def zeroCal : CalibrationSet :=
  ⟨0, 0, 0, 0, 0, 0, 0, 0, 0, 0, 0, 0, 0, 0, 0, 0, 0, 0⟩

/-- A calibration set with `dig_P1 = 1` and every other constant zero. -/
def calP1 : CalibrationSet := { zeroCal with dig_P1 := 1 }

/-- A 26-byte register-0x88 block whose bytes are all `0xFF`. -/
def blkAllFF : List ℕ := List.replicate 26 255

/-- A 7-byte register-0xE1 block whose bytes are all `0xFF`. -/
def blkE1AllFF : List ℕ := List.replicate 7 255

/-- A 26-byte register-0x88 block made of thirteen `[0x00, 0x80]` pairs. -/
def blk0080 : List ℕ :=
  [0, 128, 0, 128, 0, 128, 0, 128, 0, 128, 0, 128, 0, 128,
   0, 128, 0, 128, 0, 128, 0, 128, 0, 128, 0, 128]

/-- A 7-byte register-0xE1 block starting with the pair `[0x00, 0x80]`. -/
def blkE10080 : List ℕ := [0, 128, 0, 0, 0, 0, 0]

/-- Key fact about the packed nibble combination of
`_read_calibration_data`: oring a sign-extended byte shifted left by 4 with
a value below 16 is the same as scaling by 16 and adding, because the low
four bits of the shifted operand are zero. -/
theorem pyOr_signext_nibble : ∀ a : Fin 256, ∀ b : Fin 16,
    pyOr (pyShiftL (decodeS8 a) 4) ((b : ℕ) : ℤ) = decodeS8 a * 16 + (b : ℕ) := by
  decide

/-- Masking a byte with `0xF` keeps its value modulo 16. -/
theorem land_fifteen : ∀ n : Fin 256, (n : ℕ) &&& 15 = (n : ℕ) % 16 := by
  decide

/-- C3: every signed 16-bit calibration field decoded by
`_read_calibration_data` (dig_T2, dig_T3, dig_P2..dig_P9, dig_H2) decodes
the little-endian byte pair 0xFF 0xFF to -1 and the pair 0x00 0x80 to
-32768, i.e. sign extension follows two's complement. -/
theorem signed16_calibration_sign_extension :
    decodeS16 0xFF 0xFF = -1 ∧ decodeS16 0x00 0x80 = -32768 ∧
    ((readCalibrationData blkAllFF blkE1AllFF).dig_T2 = -1 ∧
     (readCalibrationData blkAllFF blkE1AllFF).dig_T3 = -1 ∧
     (readCalibrationData blkAllFF blkE1AllFF).dig_P2 = -1 ∧
     (readCalibrationData blkAllFF blkE1AllFF).dig_P3 = -1 ∧
     (readCalibrationData blkAllFF blkE1AllFF).dig_P4 = -1 ∧
     (readCalibrationData blkAllFF blkE1AllFF).dig_P5 = -1 ∧
     (readCalibrationData blkAllFF blkE1AllFF).dig_P6 = -1 ∧
     (readCalibrationData blkAllFF blkE1AllFF).dig_P7 = -1 ∧
     (readCalibrationData blkAllFF blkE1AllFF).dig_P8 = -1 ∧
     (readCalibrationData blkAllFF blkE1AllFF).dig_P9 = -1 ∧
     (readCalibrationData blkAllFF blkE1AllFF).dig_H2 = -1) ∧
    ((readCalibrationData blk0080 blkE10080).dig_T2 = -32768 ∧
     (readCalibrationData blk0080 blkE10080).dig_T3 = -32768 ∧
     (readCalibrationData blk0080 blkE10080).dig_P2 = -32768 ∧
     (readCalibrationData blk0080 blkE10080).dig_P3 = -32768 ∧
     (readCalibrationData blk0080 blkE10080).dig_P4 = -32768 ∧
     (readCalibrationData blk0080 blkE10080).dig_P5 = -32768 ∧
     (readCalibrationData blk0080 blkE10080).dig_P6 = -32768 ∧
     (readCalibrationData blk0080 blkE10080).dig_P7 = -32768 ∧
     (readCalibrationData blk0080 blkE10080).dig_P8 = -32768 ∧
     (readCalibrationData blk0080 blkE10080).dig_P9 = -32768 ∧
     (readCalibrationData blk0080 blkE10080).dig_H2 = -32768) := by
  decide

/-- C4: for every 7-byte block read at register 0xE1, the decoder yields
`dig_H4 = signext8(E4) * 16 + (E5 mod 16)` and
`dig_H5 = signext8(E6) * 16 + (E5 div 16)`: each nibble of the shared byte
E5 is isolated by masking respectively shifting before being combined with
the sign-extended high byte. -/
theorem dig_H4_H5_nibble_packing (b0 b1 b2 e4 e5 e6 b6 : ℕ) (blk88 : List ℕ)
    (h4 : e4 < 256) (h5 : e5 < 256) (h6 : e6 < 256) :
    (readCalibrationData blk88 [b0, b1, b2, e4, e5, e6, b6]).dig_H4
        = decodeS8 e4 * 16 + ((e5 % 16 : ℕ) : ℤ) ∧
    (readCalibrationData blk88 [b0, b1, b2, e4, e5, e6, b6]).dig_H5
        = decodeS8 e6 * 16 + ((e5 / 16 : ℕ) : ℤ) := by
  constructor
  · show pyOr (pyShiftL (decodeS8 e4) 4) ((e5 &&& 15 : ℕ) : ℤ) = _
    have hb : e5 &&& 15 = e5 % 16 := land_fifteen ⟨e5, h5⟩
    have hm : e5 % 16 < 16 := Nat.mod_lt _ (by norm_num)
    have hor : pyOr (pyShiftL (decodeS8 e4) 4) ((e5 % 16 : ℕ) : ℤ)
        = decodeS8 e4 * 16 + ((e5 % 16 : ℕ) : ℤ) :=
      pyOr_signext_nibble ⟨e4, h4⟩ ⟨e5 % 16, hm⟩
    rw [hb]
    exact hor
  · show pyOr (pyShiftL (decodeS8 e6) 4) ((e5 >>> 4 : ℕ) : ℤ) = _
    have hb : e5 >>> 4 = e5 / 16 := by
      rw [Nat.shiftRight_eq_div_pow]
    have hm : e5 / 16 < 16 := by omega
    have hor : pyOr (pyShiftL (decodeS8 e6) 4) ((e5 / 16 : ℕ) : ℤ)
        = decodeS8 e6 * 16 + ((e5 / 16 : ℕ) : ℤ) :=
      pyOr_signext_nibble ⟨e6, h6⟩ ⟨e5 / 16, hm⟩
    rw [hb]
    exact hor

/-- Witness for C4 at the concrete block `[0, 0, 0, 255, 171, 1, 0]`. -/
theorem dig_H4_H5_nibble_packing_witness :
    (255 : ℕ) < 256 ∧ (171 : ℕ) < 256 ∧ (1 : ℕ) < 256 ∧
    ((readCalibrationData [] [0, 0, 0, 255, 171, 1, 0]).dig_H4
        = decodeS8 255 * 16 + ((171 % 16 : ℕ) : ℤ) ∧
     (readCalibrationData [] [0, 0, 0, 255, 171, 1, 0]).dig_H5
        = decodeS8 1 * 16 + ((171 / 16 : ℕ) : ℤ)) :=
  ⟨by decide, by decide, by decide,
   dig_H4_H5_nibble_packing 0 0 0 255 171 1 0 [] (by decide) (by decide) (by decide)⟩

/-- C1: for every calibration set, every stored `t_fine` and every raw
humidity count in the unsigned 16-bit range, `_compensate_humidity` returns
a value in the closed interval [0, 100]; a raw-formula result above 100 is
replaced by 100 and one below 0 by 0. -/
theorem humidity_clamped (cal : CalibrationSet) (t_fine : ℤ) (adc_h : ℕ)
    (h : adc_h < 65536) :
    (0 ≤ compensate_humidity cal t_fine adc_h ∧
      compensate_humidity cal t_fine adc_h ≤ 100) ∧
    (humidityRaw cal t_fine adc_h > 100 →
      compensate_humidity cal t_fine adc_h = 100) ∧
    (humidityRaw cal t_fine adc_h < 0 →
      compensate_humidity cal t_fine adc_h = 0) := by
  refine ⟨?_, ?_, ?_⟩
  · simp only [compensate_humidity]
    split_ifs with h1 h2
    · exact ⟨by norm_num, le_refl 100⟩
    · exact ⟨le_refl 0, by norm_num⟩
    · exact ⟨le_of_not_lt h2, le_of_not_lt h1⟩
  · intro hgt
    simp only [compensate_humidity]
    rw [if_pos hgt]
  · intro hlt
    simp only [compensate_humidity]
    rw [if_neg (by linarith), if_pos hlt]

/-- Witness for C1 at the all-zero calibration set, `t_fine = 0`,
`adc_h = 1000`. -/
theorem humidity_clamped_witness :
    (1000 : ℕ) < 65536 ∧
    ((0 ≤ compensate_humidity zeroCal 0 1000 ∧
       compensate_humidity zeroCal 0 1000 ≤ 100) ∧
     (humidityRaw zeroCal 0 1000 > 100 →
       compensate_humidity zeroCal 0 1000 = 100) ∧
     (humidityRaw zeroCal 0 1000 < 0 →
       compensate_humidity zeroCal 0 1000 = 0)) :=
  ⟨by decide, humidity_clamped zeroCal 0 1000 (by decide)⟩

/-- The exception-explicit embedding of `_compensate_pressure` always
returns normally, with the value of the total rational embedding: the only
division whose divisor is not a nonzero literal is reached only after the
`if var1 == 0` guard has ruled a zero divisor out. -/
theorem compensate_pressureE_eq_ok (cal : CalibrationSet) (t_fine : ℤ)
    (adc_p : ℕ) :
    compensate_pressureE cal t_fine adc_p
      = .ok (compensate_pressure cal t_fine adc_p) := by
  simp only [compensate_pressureE, compensate_pressure, pyDivE]
  split_ifs with h1
  · rfl
  · rfl

/-- C2: whenever the intermediate normalization factor `var1` of
`_compensate_pressure` is exactly zero, the function returns 0; and the
function never raises a division fault (the exception-explicit embedding
always returns a value). -/
theorem pressure_zero_guard (cal : CalibrationSet) (t_fine : ℤ) (adc_p : ℕ) :
    (∃ v, compensate_pressureE cal t_fine adc_p = .ok v) ∧
    (pressureVar1 cal t_fine = 0 →
      compensate_pressureE cal t_fine adc_p = .ok 0 ∧
      compensate_pressure cal t_fine adc_p = 0) := by
  constructor
  · exact ⟨_, compensate_pressureE_eq_ok cal t_fine adc_p⟩
  · intro h0
    simp only [pressureVar1] at h0
    have hp : compensate_pressure cal t_fine adc_p = 0 := by
      simp only [compensate_pressure]
      rw [if_pos h0]
    refine ⟨?_, hp⟩
    rw [compensate_pressureE_eq_ok, hp]

/-- Witness for C2 at the all-zero calibration set (whose `dig_P1 = 0`
forces `var1 = 0`), `t_fine = 0`, `adc_p = 5`. -/
theorem pressure_zero_guard_witness :
    (∃ v, compensate_pressureE zeroCal 0 5 = .ok v) ∧
    (compensate_pressureE zeroCal 0 5 = .ok 0 ∧
      compensate_pressure zeroCal 0 5 = 0) :=
  ⟨(pressure_zero_guard zeroCal 0 5).1,
   (pressure_zero_guard zeroCal 0 5).2 (by simp [pressureVar1, zeroCal])⟩

/-- C5: in `measure`, `read_pressure` and `read_humidity`, the `t_fine`
used by pressure and humidity compensation is the one temperature
compensation computed from the `adc_t` of the same raw sample — for every
prior driver state, i.e. never a stale or initial value. -/
theorem same_sample_t_fine (cal : CalibrationSet) (s : DriverState)
    (adc_p adc_t adc_h : ℕ) :
    (measure cal s adc_p adc_t adc_h).1.pressure
        = compensate_pressure cal (tFineOf cal adc_t) adc_p ∧
    (measure cal s adc_p adc_t adc_h).1.humidity
        = compensate_humidity cal (tFineOf cal adc_t) adc_h ∧
    (read_pressure cal s adc_p adc_t adc_h).1
        = compensate_pressure cal (tFineOf cal adc_t) adc_p ∧
    (read_humidity cal s adc_p adc_t adc_h).1
        = compensate_humidity cal (tFineOf cal adc_t) adc_h :=
  ⟨rfl, rfl, rfl, rfl⟩

/-- C6 counterexample: right after construction, with no prior temperature
compensation, `_compensate_pressure` and `_compensate_humidity` return
ordinary values (computed from the initial `t_fine = 0.0`) instead of
failing with a `CompensationError`. -/
theorem no_compensation_error_after_init :
    pressureAfterInit calP1 1000 = .ok 6547350000 ∧
    humidityAfterInit zeroCal 1000 = .ok 0 := by
  constructor
  · show compensate_pressureE calP1 0 1000 = _
    rw [compensate_pressureE_eq_ok]
    have hv : compensate_pressure calP1 0 1000 = 6547350000 := by
      simp only [compensate_pressure, calP1, zeroCal]
      norm_num
    rw [hv]
  · show Except.ok (compensate_humidity zeroCal 0 1000) = _
    have hv : compensate_humidity zeroCal 0 1000 = 0 := by
      simp only [compensate_humidity, humidityRaw, zeroCal]
      norm_num
    rw [hv]

/-- C6 amended: calling pressure or humidity compensation without a prior
same-cycle temperature compensation does not fail — no `CompensationError`
exists in the code; the call silently computes a value from the
constructor-initialized `t_fine = 0.0`. -/
theorem compensation_without_prior_temperature_returns_normally
    (cal : CalibrationSet) (adc_p adc_h : ℕ) :
    (∃ v, pressureAfterInit cal adc_p = .ok v) ∧
    pressureAfterInit cal adc_p = .ok (compensate_pressure cal 0 adc_p) ∧
    humidityAfterInit cal adc_h = .ok (compensate_humidity cal 0 adc_h) :=
  ⟨⟨_, compensate_pressureE_eq_ok cal 0 adc_p⟩,
   compensate_pressureE_eq_ok cal 0 adc_p, rfl⟩

/-- C10: after `measure` returns mapping `m`, the accessor methods read the
cached state and agree with `m`: `temperature() == m[temperature]`,
`pressure() == m[pressure]`, `humidity() == m[humidity]`. -/
theorem accessors_agree_with_measure (cal : CalibrationSet) (s : DriverState)
    (adc_p adc_t adc_h : ℕ) :
    DriverState.temperature (measure cal s adc_p adc_t adc_h).2
        = (measure cal s adc_p adc_t adc_h).1.temperature ∧
    DriverState.pressure (measure cal s adc_p adc_t adc_h).2
        = (measure cal s adc_p adc_t adc_h).1.pressure ∧
    DriverState.humidity (measure cal s adc_p adc_t adc_h).2
        = (measure cal s adc_p adc_t adc_h).1.humidity :=
  ⟨rfl, rfl, rfl⟩

/-- With nothing scheduled, an event-loop turn changes nothing. -/
theorem callbackStep_pending_none (poll : ℤ) (ok : ℤ → Bool) (s : LoopState)
    (h : s.pending = none) : callbackStep poll ok s = s := by
  simp [callbackStep, h]

/-- With nothing scheduled, any number of event-loop turns changes nothing. -/
theorem runLoop_pending_none (poll : ℤ) (ok : ℤ → Bool) (fuel : ℕ)
    (s : LoopState) (h : s.pending = none) : runLoop poll ok fuel s = s := by
  induction fuel with
  | zero => rfl
  | succ n ih => simp only [runLoop, callbackStep_pending_none poll ok s h, ih]

/-- Splitting a run of the event loop into two runs. -/
theorem runLoop_add (poll : ℤ) (ok : ℤ → Bool) (a b : ℕ) (s : LoopState) :
    runLoop poll ok (a + b) s = runLoop poll ok b (runLoop poll ok a s) := by
  induction a generalizing s with
  | zero => rw [Nat.zero_add]; rfl
  | succ n ih =>
    rw [Nat.succ_add]
    simp only [runLoop]
    exact ih (callbackStep poll ok s)

/-- Core induction for C7: starting from a scheduled `callback(k)` with
`j` more numbers to go before `k` reaches `poll`, and every `measure` call
succeeding, the loop performs exactly `j + 1` further cycles and stops. -/
theorem runLoop_all_ok (poll : ℤ) (j : ℕ) :
    ∀ (k : ℤ) (m d : ℕ), k + (j : ℤ) = poll →
    runLoop poll (fun _ => true) (j + 1)
      { pending := some k, stopped := false, measured := m, delivered := d }
      = { pending := none, stopped := true,
          measured := m + (j + 1), delivered := d + (j + 1) } := by
  induction j with
  | zero =>
    intro k m d hk
    have hk2 : k = poll := by omega
    simp only [runLoop]
    simp [callbackStep, hk2]
  | succ n ih =>
    intro k m d hk
    have hne : k ≠ poll := by omega
    have hstep : callbackStep poll (fun _ => true)
        { pending := some k, stopped := false, measured := m, delivered := d }
        = { pending := some (k + 1), stopped := false,
            measured := m + 1, delivered := d + 1 } := by
      simp [callbackStep, hne]
    have hrec := ih (k + 1) (m + 1) (d + 1) (by omega)
    have hm : m + 1 + (n + 1) = m + (n + 1 + 1) := by omega
    have hd : d + 1 + (n + 1) = d + (n + 1 + 1) := by omega
    rw [hm, hd] at hrec
    calc runLoop poll (fun _ => true) (n + 1 + 1)
          { pending := some k, stopped := false, measured := m, delivered := d }
        = runLoop poll (fun _ => true) (n + 1) (callbackStep poll (fun _ => true)
            { pending := some k, stopped := false, measured := m, delivered := d }) := rfl
      _ = runLoop poll (fun _ => true) (n + 1)
            { pending := some (k + 1), stopped := false,
              measured := m + 1, delivered := d + 1 } := by rw [hstep]
      _ = { pending := none, stopped := true,
            measured := m + (n + 1 + 1), delivered := d + (n + 1 + 1) } := hrec

/-- C7: for every finite poll count `n >= 1`, the acquisition loop started
by `Application._start` invokes `measure` and `_handle_data` exactly `n`
times and then stops the event loop instead of scheduling another tick
(no further turn, however many, changes anything). -/
theorem loop_runs_exactly_poll_cycles (n : ℕ) (hn : 1 ≤ n) (extra : ℕ) :
    runLoop (n : ℤ) (fun _ => true) (n + extra) startState
      = { pending := none, stopped := true, measured := n, delivered := n } := by
  obtain ⟨j, rfl⟩ : ∃ j, n = j + 1 := ⟨n - 1, by omega⟩
  rw [runLoop_add]
  have hs : startState
      = { pending := some 1, stopped := false, measured := 0, delivered := 0 } := rfl
  rw [hs]
  have h1 := runLoop_all_ok ((j + 1 : ℕ) : ℤ) j 1 0 0 (by push_cast; ring)
  simp only [Nat.zero_add] at h1
  rw [h1]
  exact runLoop_pending_none _ _ extra _ rfl

/-- Witness for C7 at poll count 3 with 2 spare event-loop turns. -/
theorem loop_runs_exactly_poll_cycles_witness :
    1 ≤ 3 ∧
    runLoop ((3 : ℕ) : ℤ) (fun _ => true) (3 + 2) startState
      = { pending := none, stopped := true, measured := 3, delivered := 3 } :=
  ⟨by decide, loop_runs_exactly_poll_cycles 3 (by decide) 2⟩

/-- C8 counterexample: with poll count 3 and `measure` raising on the first
cycle, the callback aborts before the `call_later` line: after two turns —
and still after one hundred — no further `measure` call has happened
(`measured` stays 1), nothing is delivered, nothing is scheduled and the
loop was never stopped.  The next cycle is not scheduled, refuting the
claim that the scheduler continues after a failed cycle. -/
theorem failed_cycle_not_rescheduled_cex :
    runLoop 3 (fun k : ℤ => k != 1) 2 startState
      = { pending := none, stopped := false, measured := 1, delivered := 0 } ∧
    runLoop 3 (fun k : ℤ => k != 1) 100 startState
      = { pending := none, stopped := false, measured := 1, delivered := 0 } := by
  constructor
  · decide
  · decide

/-- C8 amended: when `measure` raises during a cycle, the exception
propagates out of the callback before either the `call_later` or the
`loop.stop()` line runs: the failed cycle delivers nothing, no next cycle
is ever scheduled, and the loop is not stopped — acquisition silently ends
while the event loop keeps running idle. -/
theorem measure_failure_aborts_scheduling (poll : ℤ) (ok : ℤ → Bool)
    (k : ℤ) (m d fuel : ℕ) (hok : ok k = false) :
    runLoop poll ok (fuel + 1)
      { pending := some k, stopped := false, measured := m, delivered := d }
      = { pending := none, stopped := false, measured := m + 1, delivered := d } := by
  simp only [runLoop]
  have hstep : callbackStep poll ok
      { pending := some k, stopped := false, measured := m, delivered := d }
      = { pending := none, stopped := false, measured := m + 1, delivered := d } := by
    simp [callbackStep, hok]
  rw [hstep]
  exact runLoop_pending_none poll ok fuel _ rfl

/-- Witness for C8 amended: an always-raising `measure`, poll count 3,
first cycle, five event-loop turns. -/
theorem measure_failure_aborts_scheduling_witness :
    (fun _ : ℤ => false) 1 = false ∧
    runLoop 3 (fun _ : ℤ => false) (4 + 1)
      { pending := some 1, stopped := false, measured := 0, delivered := 0 }
      = { pending := none, stopped := false, measured := 0 + 1, delivered := 0 } :=
  ⟨rfl, measure_failure_aborts_scheduling 3 (fun _ : ℤ => false) 1 0 0 4 rfl⟩

/-- C9 counterexample: with both sinks present, a raising webserver
broadcast and a healthy MQTT publisher, `SensorNode._handle_data` delivers
the measurement to neither sink and the exception escapes the method —
the healthy second sink is starved, refuting per-sink isolation. -/
theorem failing_sink_starves_healthy_sink_cex :
    handleData true true false true
      = { webDelivered := false, mqttDelivered := false, raised := true } := by
  decide

/-- C9 amended: a webserver sink that raises prevents delivery of that
measurement to the MQTT publisher sink (whether or not one is configured,
healthy or not), and the exception propagates out of `_handle_data` into
the scheduler callback, so the acquisition loop schedules no further cycle. -/
theorem failing_web_sink_blocks_mqtt_sink (hasMqtt mqttOk : Bool) :
    handleData true hasMqtt false mqttOk
      = { webDelivered := false, mqttDelivered := false, raised := true } := by
  cases hasMqtt <;> cases mqttOk <;> rfl

end Senlib
